import Mathlib

/-!
Verification of the `mpeg4-audio-const` library (src/lib.rs): a validated
wrapper `AudioObjectType` over a `u8` MPEG-4 audio-object-type code, with a
fallible conversion from `u8`, an infallible conversion back to `u8`, a table
of named constants generated by the `implement_aot!` macro, and a `Debug`
rendering.  Bytes are modelled as `Fin 256`.
-/

/-- Embeds `enum AudioObjectTypeError` (src/lib.rs lines 13–19): the error
returned when converting a `u8` into an `AudioObjectType` fails. -/
inductive AudioObjectTypeError where
  | EscapeValue : AudioObjectTypeError
  | TooLarge : Fin 256 → AudioObjectTypeError
  deriving DecidableEq

/-- Embeds `pub struct AudioObjectType(u8)` (src/lib.rs line 54): a newtype
over the raw byte.  The Rust field `.0` is the field `val` here. -/
structure AudioObjectType where
  val : Fin 256
  deriving DecidableEq

/-- Embeds `pub const AOT_ESCAPE_VALUE: u8 = 0b_11111` (src/lib.rs line 58). -/
def AOT_ESCAPE_VALUE : Fin 256 := 0b11111

/-- Embeds `impl TryFrom<u8> for AudioObjectType` (src/lib.rs lines 65–75):
`31` maps to `EscapeValue`, `96..=255` to `TooLarge(value)`, everything else
succeeds wrapping the byte unchanged. -/
def AudioObjectType.try_from (value : Fin 256) :
    Except AudioObjectTypeError AudioObjectType :=
  if value = AOT_ESCAPE_VALUE then Except.error AudioObjectTypeError.EscapeValue
  else if 96 ≤ value.val then Except.error (AudioObjectTypeError.TooLarge value)
  else Except.ok ⟨value⟩

/-- Embeds `impl From<AudioObjectType> for u8` (src/lib.rs lines 60–64):
returns the wrapped byte `v.0`. -/
def u8_from (v : AudioObjectType) : Fin 256 := v.val

/-- The `(tag, identifier)` pairs of the `implement_aot!` invocation
(src/lib.rs lines 102–146), in source order.  The identifier string is what
`stringify!($id)` produces in the generated `Debug` impl. -/
def aotTable : List (Fin 256 × String) :=
  [ (0, "NULL"),
    (1, "AAC_MAIN"),
    (3, "AAC_SSR"),
    (4, "AAC_LTP"),
    (7, "TWIN_VQ"),
    (8, "CELP"),
    (9, "HVXC"),
    (5, "SBR"),
    (6, "AAC_SCALABLE"),
    (2, "AAC_LC"),
    (12, "TTSI"),
    (13, "MAIN_SYNTHETIC"),
    (14, "WAVETABLE_SYNTHESIS"),
    (15, "GENERAL_MIDI"),
    (16, "ALGORITHMIC_SYNTHESIS_AND_AUDIO_FX"),
    (17, "ER_AAC_LC"),
    (19, "ER_AAC_LTP"),
    (20, "ER_AAC_SCALABLE"),
    (21, "ER_TWIN_VQ"),
    (22, "ER_BSAC"),
    (23, "ER_AAC_LD"),
    (24, "ER_CELP"),
    (25, "ER_HVXC"),
    (26, "ER_HILN"),
    (27, "ER_PARAMETRIC"),
    (28, "SSC"),
    (29, "PS"),
    (30, "MPEG_SURROUND"),
    (32, "LAYER1"),
    (34, "LAYER3"),
    (35, "DST"),
    (36, "ALS"),
    (37, "SLS"),
    (38, "SLS_NON_CORE"),
    (39, "ER_AAC_ELD"),
    (40, "SMR_SIMPLE"),
    (41, "SMR_MAIN"),
    (42, "USAC"),
    (43, "SAOC"),
    (44, "LD_MPEG_SURROUND"),
    (45, "SAOC_DE"),
    (46, "AUDIO_SYNC") ]

/-- First-match lookup over the table, mirroring the ordered `match` arms the
`implement_aot!` macro generates in `fmt::Debug` (src/lib.rs lines 89–98). -/
def lookupName (tag : Fin 256) : List (Fin 256 × String) → Option String
  | [] => none
  | entry :: rest => if tag = entry.1 then some entry.2 else lookupName tag rest

/-- Embeds the generated `impl fmt::Debug for AudioObjectType` (src/lib.rs
lines 89–98): a named tag renders as `"<Name>(<code>)"`, any other code as
`"RESERVED(<code>)"`. -/
def fmtDebug (v : AudioObjectType) : String :=
  match lookupName v.val aotTable with
  | some nm => nm ++ "(" ++ Nat.repr v.val.val ++ ")"
  | none => "RESERVED(" ++ Nat.repr v.val.val ++ ")"

/-- Embeds the associated constant `NULL` generated by `implement_aot!`. -/
def AudioObjectType.NULL : AudioObjectType := ⟨0⟩

/-- Embeds the associated constant `AAC_MAIN` generated by `implement_aot!`. -/
def AudioObjectType.AAC_MAIN : AudioObjectType := ⟨1⟩

/-- Embeds the associated constant `AAC_SSR` generated by `implement_aot!`. -/
def AudioObjectType.AAC_SSR : AudioObjectType := ⟨3⟩

/-- Embeds the associated constant `AAC_LTP` generated by `implement_aot!`. -/
def AudioObjectType.AAC_LTP : AudioObjectType := ⟨4⟩

/-- Embeds the associated constant `TWIN_VQ` generated by `implement_aot!`. -/
def AudioObjectType.TWIN_VQ : AudioObjectType := ⟨7⟩

/-- Embeds the associated constant `CELP` generated by `implement_aot!`. -/
def AudioObjectType.CELP : AudioObjectType := ⟨8⟩

/-- Embeds the associated constant `HVXC` generated by `implement_aot!`. -/
def AudioObjectType.HVXC : AudioObjectType := ⟨9⟩

/-- Embeds the associated constant `SBR` generated by `implement_aot!`. -/
def AudioObjectType.SBR : AudioObjectType := ⟨5⟩

/-- Embeds the associated constant `AAC_SCALABLE` generated by `implement_aot!`. -/
def AudioObjectType.AAC_SCALABLE : AudioObjectType := ⟨6⟩

/-- Embeds the associated constant `AAC_LC` generated by `implement_aot!`. -/
def AudioObjectType.AAC_LC : AudioObjectType := ⟨2⟩

/-- Embeds the associated constant `TTSI` generated by `implement_aot!`. -/
def AudioObjectType.TTSI : AudioObjectType := ⟨12⟩

/-- Embeds the associated constant `MAIN_SYNTHETIC` generated by `implement_aot!`. -/
def AudioObjectType.MAIN_SYNTHETIC : AudioObjectType := ⟨13⟩

/-- Embeds the associated constant `WAVETABLE_SYNTHESIS` generated by `implement_aot!`. -/
def AudioObjectType.WAVETABLE_SYNTHESIS : AudioObjectType := ⟨14⟩

/-- Embeds the associated constant `GENERAL_MIDI` generated by `implement_aot!`. -/
def AudioObjectType.GENERAL_MIDI : AudioObjectType := ⟨15⟩

/-- Embeds the associated constant `ALGORITHMIC_SYNTHESIS_AND_AUDIO_FX` generated by `implement_aot!`. -/
def AudioObjectType.ALGORITHMIC_SYNTHESIS_AND_AUDIO_FX : AudioObjectType := ⟨16⟩

/-- Embeds the associated constant `ER_AAC_LC` generated by `implement_aot!`. -/
def AudioObjectType.ER_AAC_LC : AudioObjectType := ⟨17⟩

/-- Embeds the associated constant `ER_AAC_LTP` generated by `implement_aot!`. -/
def AudioObjectType.ER_AAC_LTP : AudioObjectType := ⟨19⟩

/-- Embeds the associated constant `ER_AAC_SCALABLE` generated by `implement_aot!`. -/
def AudioObjectType.ER_AAC_SCALABLE : AudioObjectType := ⟨20⟩

/-- Embeds the associated constant `ER_TWIN_VQ` generated by `implement_aot!`. -/
def AudioObjectType.ER_TWIN_VQ : AudioObjectType := ⟨21⟩

/-- Embeds the associated constant `ER_BSAC` generated by `implement_aot!`. -/
def AudioObjectType.ER_BSAC : AudioObjectType := ⟨22⟩

/-- Embeds the associated constant `ER_AAC_LD` generated by `implement_aot!`. -/
def AudioObjectType.ER_AAC_LD : AudioObjectType := ⟨23⟩

/-- Embeds the associated constant `ER_CELP` generated by `implement_aot!`. -/
def AudioObjectType.ER_CELP : AudioObjectType := ⟨24⟩

/-- Embeds the associated constant `ER_HVXC` generated by `implement_aot!`. -/
def AudioObjectType.ER_HVXC : AudioObjectType := ⟨25⟩

/-- Embeds the associated constant `ER_HILN` generated by `implement_aot!`. -/
def AudioObjectType.ER_HILN : AudioObjectType := ⟨26⟩

/-- Embeds the associated constant `ER_PARAMETRIC` generated by `implement_aot!`. -/
def AudioObjectType.ER_PARAMETRIC : AudioObjectType := ⟨27⟩

/-- Embeds the associated constant `SSC` generated by `implement_aot!`. -/
def AudioObjectType.SSC : AudioObjectType := ⟨28⟩

/-- Embeds the associated constant `PS` generated by `implement_aot!`. -/
def AudioObjectType.PS : AudioObjectType := ⟨29⟩

/-- Embeds the associated constant `MPEG_SURROUND` generated by `implement_aot!`. -/
def AudioObjectType.MPEG_SURROUND : AudioObjectType := ⟨30⟩

/-- Embeds the associated constant `LAYER1` generated by `implement_aot!`. -/
def AudioObjectType.LAYER1 : AudioObjectType := ⟨32⟩

/-- Embeds the associated constant `LAYER3` generated by `implement_aot!`. -/
def AudioObjectType.LAYER3 : AudioObjectType := ⟨34⟩

/-- Embeds the associated constant `DST` generated by `implement_aot!`. -/
def AudioObjectType.DST : AudioObjectType := ⟨35⟩

/-- Embeds the associated constant `ALS` generated by `implement_aot!`. -/
def AudioObjectType.ALS : AudioObjectType := ⟨36⟩

/-- Embeds the associated constant `SLS` generated by `implement_aot!`. -/
def AudioObjectType.SLS : AudioObjectType := ⟨37⟩

/-- Embeds the associated constant `SLS_NON_CORE` generated by `implement_aot!`. -/
def AudioObjectType.SLS_NON_CORE : AudioObjectType := ⟨38⟩

/-- Embeds the associated constant `ER_AAC_ELD` generated by `implement_aot!`. -/
def AudioObjectType.ER_AAC_ELD : AudioObjectType := ⟨39⟩

/-- Embeds the associated constant `SMR_SIMPLE` generated by `implement_aot!`. -/
def AudioObjectType.SMR_SIMPLE : AudioObjectType := ⟨40⟩

/-- Embeds the associated constant `SMR_MAIN` generated by `implement_aot!`. -/
def AudioObjectType.SMR_MAIN : AudioObjectType := ⟨41⟩

/-- Embeds the associated constant `USAC` generated by `implement_aot!`. -/
def AudioObjectType.USAC : AudioObjectType := ⟨42⟩

/-- Embeds the associated constant `SAOC` generated by `implement_aot!`. -/
def AudioObjectType.SAOC : AudioObjectType := ⟨43⟩

/-- Embeds the associated constant `LD_MPEG_SURROUND` generated by `implement_aot!`. -/
def AudioObjectType.LD_MPEG_SURROUND : AudioObjectType := ⟨44⟩

/-- Embeds the associated constant `SAOC_DE` generated by `implement_aot!`. -/
def AudioObjectType.SAOC_DE : AudioObjectType := ⟨45⟩

/-- Embeds the associated constant `AUDIO_SYNC` generated by `implement_aot!`. -/
def AudioObjectType.AUDIO_SYNC : AudioObjectType := ⟨46⟩

/-- The named constants paired with the tag each one is declared with in the
`implement_aot!` invocation, in source order. -/
def namedConstantsWithCodes : List (AudioObjectType × Fin 256) :=
  [ (AudioObjectType.NULL, 0),
    (AudioObjectType.AAC_MAIN, 1),
    (AudioObjectType.AAC_SSR, 3),
    (AudioObjectType.AAC_LTP, 4),
    (AudioObjectType.TWIN_VQ, 7),
    (AudioObjectType.CELP, 8),
    (AudioObjectType.HVXC, 9),
    (AudioObjectType.SBR, 5),
    (AudioObjectType.AAC_SCALABLE, 6),
    (AudioObjectType.AAC_LC, 2),
    (AudioObjectType.TTSI, 12),
    (AudioObjectType.MAIN_SYNTHETIC, 13),
    (AudioObjectType.WAVETABLE_SYNTHESIS, 14),
    (AudioObjectType.GENERAL_MIDI, 15),
    (AudioObjectType.ALGORITHMIC_SYNTHESIS_AND_AUDIO_FX, 16),
    (AudioObjectType.ER_AAC_LC, 17),
    (AudioObjectType.ER_AAC_LTP, 19),
    (AudioObjectType.ER_AAC_SCALABLE, 20),
    (AudioObjectType.ER_TWIN_VQ, 21),
    (AudioObjectType.ER_BSAC, 22),
    (AudioObjectType.ER_AAC_LD, 23),
    (AudioObjectType.ER_CELP, 24),
    (AudioObjectType.ER_HVXC, 25),
    (AudioObjectType.ER_HILN, 26),
    (AudioObjectType.ER_PARAMETRIC, 27),
    (AudioObjectType.SSC, 28),
    (AudioObjectType.PS, 29),
    (AudioObjectType.MPEG_SURROUND, 30),
    (AudioObjectType.LAYER1, 32),
    (AudioObjectType.LAYER3, 34),
    (AudioObjectType.DST, 35),
    (AudioObjectType.ALS, 36),
    (AudioObjectType.SLS, 37),
    (AudioObjectType.SLS_NON_CORE, 38),
    (AudioObjectType.ER_AAC_ELD, 39),
    (AudioObjectType.SMR_SIMPLE, 40),
    (AudioObjectType.SMR_MAIN, 41),
    (AudioObjectType.USAC, 42),
    (AudioObjectType.SAOC, 43),
    (AudioObjectType.LD_MPEG_SURROUND, 44),
    (AudioObjectType.SAOC_DE, 45),
    (AudioObjectType.AUDIO_SYNC, 46) ]

/-- The named constants themselves, in source order. -/
def namedConstants : List AudioObjectType := namedConstantsWithCodes.map Prod.fst

/-- The byte codes the spec's Named AOT table sentence claims are named:
0–9, 12–30, 32 and 34–46 (stated from the spec's words, for comparison with
`aotTable`). -/
def claimedNamedCodes : List Nat :=
  List.range 10 ++ List.range' 12 19 ++ [32] ++ List.range' 34 13

/-- The byte codes the source actually names: 0–9, 12–17, 19–30, 32 and
34–46 (the spec's claimed set minus 18). -/
def amendedNamedCodes : List Nat :=
  List.range 10 ++ List.range' 12 6 ++ List.range' 19 12 ++ [32] ++ List.range' 34 13

deriving instance DecidableEq for Except

set_option maxRecDepth 4000

/-- Claim C1: for every byte `b`, `try_from` fails with `EscapeValue` iff
`b = 31`, fails with `TooLarge` carrying exactly `b` iff `b ≥ 96`, and
succeeds (wrapping `b` unchanged) for every other `b`; in particular
`try_from 97` yields the error carrying exactly `97`. -/
theorem try_from_partition :
    (∀ b : Fin 256,
      (AudioObjectType.try_from b = Except.error AudioObjectTypeError.EscapeValue ↔ b = 31) ∧
      (AudioObjectType.try_from b = Except.error (AudioObjectTypeError.TooLarge b) ↔ 96 ≤ b.val) ∧
      (AudioObjectType.try_from b = Except.ok ⟨b⟩ ↔ (b ≠ 31 ∧ b.val ≤ 95))) ∧
    AudioObjectType.try_from 97 = Except.error (AudioObjectTypeError.TooLarge 97) := by
  decide

/-- Claim C2: conversion is lossless and round-trip exact: whenever
`try_from b` succeeds with `x`, converting `x` back to a byte gives `b`
and re-converting that byte succeeds with the same `x`. -/
theorem round_trip_exact (b : Fin 256) (x : AudioObjectType)
    (h : AudioObjectType.try_from b = Except.ok x) :
    AudioObjectType.try_from (u8_from x) = Except.ok x ∧ u8_from x = b := by
  unfold AudioObjectType.try_from at h
  by_cases hesc : b = AOT_ESCAPE_VALUE
  · rw [if_pos hesc] at h
    exact absurd h (by simp)
  rw [if_neg hesc] at h
  by_cases hlarge : 96 ≤ b.val
  · rw [if_pos hlarge] at h
    exact absurd h (by simp)
  rw [if_neg hlarge] at h
  simp only [Except.ok.injEq] at h
  subst h
  refine ⟨?_, rfl⟩
  show AudioObjectType.try_from b = Except.ok ⟨b⟩
  unfold AudioObjectType.try_from
  rw [if_neg hesc, if_neg hlarge]

/-- Witness for C2 at the concrete byte 2. -/
theorem round_trip_exact_witness :
    AudioObjectType.try_from (u8_from ⟨2⟩) = Except.ok ⟨2⟩ ∧
    u8_from (AudioObjectType.mk 2) = 2 :=
  round_trip_exact 2 ⟨2⟩ (by decide)

/-- Claim C3 counterexample: the spec claims code 18 (inside its "12–30"
range) has an assigned name, but the source table has no entry for 18 and
the debug rendering of code 18 is "RESERVED(18)". -/
theorem named_table_claim_false_at_18 :
    18 ∈ claimedNamedCodes ∧ lookupName (18 : Fin 256) aotTable = none ∧
    fmtDebug ⟨18⟩ = "RESERVED(18)" := by
  decide

/-- Claim C3 (amended): the table assigns a name to exactly the codes
0–9, 12–17, 19–30, 32 and 34–46; every table entry renders as
`"<Name>(<code>)"`, and every other code in `[0,95]` (31 excluded) renders
as `"RESERVED(<code>)"`. -/
theorem named_table_amended :
    (∀ b : Fin 256, b.val ≤ 95 →
      ((lookupName b aotTable).isSome ↔ b.val ∈ amendedNamedCodes)) ∧
    (∀ p ∈ aotTable, fmtDebug ⟨p.1⟩ = p.2 ++ "(" ++ Nat.repr p.1.val ++ ")") ∧
    (∀ b : Fin 256, b.val ≤ 95 → b.val ∉ amendedNamedCodes →
      fmtDebug ⟨b⟩ = "RESERVED(" ++ Nat.repr b.val ++ ")") := by
  refine ⟨by decide, by decide, by decide⟩

/-- Witness for the amended C3 at codes 2 (named) and 47 (reserved). -/
theorem named_table_amended_witness :
    ((lookupName (2 : Fin 256) aotTable).isSome ↔ (2 : Fin 256).val ∈ amendedNamedCodes) ∧
    fmtDebug ⟨((2 : Fin 256), "AAC_LC").1⟩ =
      ((2 : Fin 256), "AAC_LC").2 ++ "(" ++ Nat.repr ((2 : Fin 256), "AAC_LC").1.val ++ ")" ∧
    fmtDebug ⟨(47 : Fin 256)⟩ = "RESERVED(" ++ Nat.repr (47 : Fin 256).val ++ ")" :=
  ⟨named_table_amended.1 2 (by decide),
   named_table_amended.2.1 ((2 : Fin 256), "AAC_LC") (by decide),
   named_table_amended.2.2 47 (by decide) (by decide)⟩

/-- Claim C4: for every named constant `C` declared with tag `n`,
`try_from n` succeeds with exactly `C`, and converting `C` to a byte
gives back `n`. -/
theorem named_constant_consistency :
    ∀ p ∈ namedConstantsWithCodes,
      AudioObjectType.try_from p.2 = Except.ok p.1 ∧ u8_from p.1 = p.2 := by
  decide

/-- Witness for C4 at the constant `AAC_LC` with code 2. -/
theorem named_constant_consistency_witness :
    AudioObjectType.try_from (AudioObjectType.AAC_LC, (2 : Fin 256)).2 =
      Except.ok (AudioObjectType.AAC_LC, (2 : Fin 256)).1 ∧
    u8_from (AudioObjectType.AAC_LC, (2 : Fin 256)).1 = (AudioObjectType.AAC_LC, (2 : Fin 256)).2 :=
  named_constant_consistency (AudioObjectType.AAC_LC, 2) (by decide)

/-- Claim C5: concrete debug renderings: code 2 renders as "AAC_LC(2)",
code 95 as "RESERVED(95)", code 0 as "NULL(0)", and `try_from` succeeds on
each of those bytes with exactly the rendered value. -/
theorem debug_rendering_examples :
    AudioObjectType.try_from 2 = Except.ok ⟨2⟩ ∧ fmtDebug ⟨2⟩ = "AAC_LC(2)" ∧
    AudioObjectType.try_from 95 = Except.ok ⟨95⟩ ∧ fmtDebug ⟨95⟩ = "RESERVED(95)" ∧
    AudioObjectType.try_from 0 = Except.ok ⟨0⟩ ∧ fmtDebug ⟨0⟩ = "NULL(0)" := by
  decide

/-- Claim C6: every constructed `AudioObjectType` — any success of
`try_from` and every named constant — wraps a code in `[0,95]` that is
not 31. -/
theorem constructed_invariant :
    (∀ b : Fin 256, ∀ x : AudioObjectType,
      AudioObjectType.try_from b = Except.ok x → x.val.val ≤ 95 ∧ x.val.val ≠ 31) ∧
    (∀ x ∈ namedConstants, x.val.val ≤ 95 ∧ x.val.val ≠ 31) := by
  constructor
  · intro b x h
    unfold AudioObjectType.try_from at h
    by_cases hesc : b = AOT_ESCAPE_VALUE
    · rw [if_pos hesc] at h
      exact absurd h (by simp)
    rw [if_neg hesc] at h
    by_cases hlarge : 96 ≤ b.val
    · rw [if_pos hlarge] at h
      exact absurd h (by simp)
    rw [if_neg hlarge] at h
    simp only [Except.ok.injEq] at h
    subst h
    refine ⟨?_, ?_⟩
    · show b.val ≤ 95
      omega
    · intro hv
      exact hesc (Fin.ext hv)
  · decide

/-- Witness for C6 at byte 2 and at the constant `AAC_LC`. -/
theorem constructed_invariant_witness :
    ((AudioObjectType.mk 2).val.val ≤ 95 ∧ (AudioObjectType.mk 2).val.val ≠ 31) ∧
    (AudioObjectType.AAC_LC.val.val ≤ 95 ∧ AudioObjectType.AAC_LC.val.val ≠ 31) :=
  ⟨constructed_invariant.1 2 ⟨2⟩ (by decide),
   constructed_invariant.2 AudioObjectType.AAC_LC (by decide)⟩

/-- Claim C7: `try_from` is total with no third outcome: for every byte `b`
the result is the `EscapeValue` error, the `TooLarge b` error, or success
wrapping `b` itself. -/
theorem try_from_total :
    ∀ b : Fin 256,
      AudioObjectType.try_from b = Except.error AudioObjectTypeError.EscapeValue ∨
      AudioObjectType.try_from b = Except.error (AudioObjectTypeError.TooLarge b) ∨
      AudioObjectType.try_from b = Except.ok ⟨b⟩ := by
  decide

/-- Claim C8: equality on `AudioObjectType` is determined purely by the
underlying code: `x = y` iff `u8_from x = u8_from y`. -/
theorem eq_iff_code_eq :
    ∀ x y : AudioObjectType, x = y ↔ u8_from x = u8_from y := by
  intro x y
  cases x
  cases y
  simp [u8_from]

/-- Witness for C8 at `AAC_LC` and the value built from byte 2. -/
theorem eq_iff_code_eq_witness :
    AudioObjectType.AAC_LC = ⟨2⟩ ↔ u8_from AudioObjectType.AAC_LC = u8_from ⟨2⟩ :=
  eq_iff_code_eq AudioObjectType.AAC_LC ⟨2⟩

/-- Claim C9: the named constants are pairwise distinct, and no two of them
are declared with the same code. -/
theorem named_constants_pairwise_distinct :
    namedConstants.Nodup ∧ (namedConstantsWithCodes.map Prod.snd).Nodup := by
  decide

/-- Claim C10: equality on `AudioObjectTypeError` distinguishes the failure
kinds and payloads: `EscapeValue` never equals `TooLarge b`, and
`TooLarge a = TooLarge b` iff `a = b`. -/
theorem error_eq_discriminates :
    (∀ b : Fin 256,
      AudioObjectTypeError.EscapeValue ≠ AudioObjectTypeError.TooLarge b) ∧
    (∀ a b : Fin 256,
      AudioObjectTypeError.TooLarge a = AudioObjectTypeError.TooLarge b ↔ a = b) := by
  constructor
  · intro b h
    exact AudioObjectTypeError.noConfusion h
  · intro a b
    constructor
    · intro h
      injection h
    · intro h
      rw [h]

/-- Witness for C10 at payloads 97 and 2. -/
theorem error_eq_discriminates_witness :
    (AudioObjectTypeError.EscapeValue ≠ AudioObjectTypeError.TooLarge 97) ∧
    (AudioObjectTypeError.TooLarge 2 = AudioObjectTypeError.TooLarge 2 ↔ (2 : Fin 256) = 2) :=
  ⟨error_eq_discriminates.1 97, error_eq_discriminates.2 2 2⟩
